import Mathlib

/-!
Shallow embedding of the booking / review core of the alx_travel_app repository
(listings/serializers.py and listings/management/commands/seed.py), together
with theorems settling the specification claims about it.

Conventions of the embedding:
* users, listings, bookings and reviews are identified by natural numbers;
* calendar dates are integers (day ordinals), so Python date comparison and
  `(d2 - d1).days` become integer comparison and subtraction;
* Django `Decimal` prices are rationals (exact decimal-by-integer arithmetic);
* a raised `serializers.ValidationError` becomes an `Except .error` carrying
  the error kind the specification gives to that raise site;
* Django querysets over the database become list filters over an explicit
  `DB` state record, and `objects.create` appends to the corresponding list.
-/

abbrev UserId := Nat
abbrev ListingId := Nat
abbrev BookingId := Nat
abbrev ReviewId := Nat

/-- A calendar date, as a day ordinal. -/
abbrev Date := Int

/-- The status choices of the Booking model. -/
inductive BookingStatus where
  | pending
  | confirmed
  | cancelled
  | completed
deriving DecidableEq, Repr, Inhabited

/-- A Listing record, restricted to the fields the booking and review logic
reads: primary key, host, price_per_night, max_guests, available. -/
structure Listing where
  listing_id : ListingId
  host : UserId
  price_per_night : ℚ
  max_guests : Nat
  available : Bool
deriving DecidableEq, Repr, Inhabited

/-- A Booking record. -/
structure Booking where
  booking_id : BookingId
  listing : ListingId
  guest : UserId
  check_in_date : Date
  check_out_date : Date
  number_of_guests : Nat
  total_price : ℚ
  status : BookingStatus
deriving DecidableEq, Repr, Inhabited

/-- A Review record. The booking link is an optional reference. -/
structure Review where
  review_id : ReviewId
  listing : ListingId
  guest : UserId
  booking : Option BookingId
  rating : Int
  comment : String
deriving DecidableEq, Repr, Inhabited

/-- The persisted state the serializers query and write. -/
structure DB where
  listings : List Listing
  bookings : List Booking
  reviews : List Review
deriving DecidableEq, Repr, Inhabited

/-- Listing.objects.get(listing_id=lid), as an Option. -/
def findListing (db : DB) (lid : ListingId) : Option Listing :=
  db.listings.find? fun L => L.listing_id == lid

/-- Booking.objects.get(booking_id=bid), as an Option. -/
def findBooking (db : DB) (bid : BookingId) : Option Booking :=
  db.bookings.find? fun b => b.booking_id == bid

/-- The error kinds the specification assigns to the raise sites of
BookingSerializer.validate. -/
inductive BookingError where
  | InvalidDateRange
  | PastDate
  | NotFound
  | CapacityExceeded
  | ListingUnavailable
  | DateConflict
  | InvalidGuest
deriving DecidableEq, Repr

/-- The error kinds the specification assigns to the raise sites of
ReviewSerializer validation. -/
inductive ReviewError where
  | InvalidRating
  | NotFound
  | NotEligible
  | DuplicateReview
deriving DecidableEq, Repr

/-- The writable input of BookingSerializer.  `listing_id`, the two dates and
`number_of_guests` are the write fields of the serializer; `status` is in
`fields` and NOT in `read_only_fields`, so it is client-writable; `guest` and
`total_price` carry what a client may try to supply for the read-only
declared fields (DRF drops them, and the embedding never reads them). -/
structure BookingRequest where
  listing_id : ListingId
  check_in_date : Date
  check_out_date : Date
  number_of_guests : Nat
  status : Option BookingStatus
  guest : Option UserId
  total_price : Option ℚ
deriving Repr

namespace BookingSerializer

/-- The overlap queryset of BookingSerializer.validate:
Booking.objects.filter(listing=listing, status__in=[confirmed, pending],
check_in_date__lt=check_out, check_out_date__gt=check_in). -/
def overlappingBookings (db : DB) (listing : Listing)
    (check_in check_out : Date) : List Booking :=
  db.bookings.filter fun b =>
    b.listing == listing.listing_id &&
    (b.status == .confirmed || b.status == .pending) &&
    decide (b.check_in_date < check_out) &&
    decide (b.check_out_date > check_in)

/-- BookingSerializer.validate, line by line: date order, past date, listing
lookup, guest count, availability, overlap — first raise wins. -/
def validate (db : DB) (today : Date) (data : BookingRequest) :
    Except BookingError Unit :=
  if data.check_out_date ≤ data.check_in_date then
    .error .InvalidDateRange
  else if data.check_in_date < today then
    .error .PastDate
  else
    match findListing db data.listing_id with
    | none => .error .NotFound
    | some listing =>
      if data.number_of_guests > listing.max_guests then
        .error .CapacityExceeded
      else if !listing.available then
        .error .ListingUnavailable
      else if !(overlappingBookings db listing data.check_in_date
                  data.check_out_date).isEmpty then
        .error .DateConflict
      else
        .ok ()

end BookingSerializer

/-- The serializer save pipeline for a booking: run BookingSerializer.validate,
then BookingSerializer.create.  The create step refetches the listing by id,
computes duration = (check_out - check_in).days and
total_price = price_per_night * duration, sets
guest := the authenticated request user, and persists.  The client `guest` and
`total_price` request fields are never read (read-only fields); `status` is
writable and the stored status is the supplied one.  The `pending` fallback for
an omitted status is the Booking model field default, which is not under src;
modelled from the spec: initial status = pending. -/
def createBooking (db : DB) (today : Date) (requester : UserId)
    (newId : BookingId) (data : BookingRequest) :
    Except BookingError (DB × Booking) :=
  match BookingSerializer.validate db today data with
  | .error e => .error e
  | .ok _ =>
    match findListing db data.listing_id with
    | none => .error .NotFound
    | some listing =>
      let duration : Int := data.check_out_date - data.check_in_date
      let b : Booking :=
        { booking_id := newId
          listing := listing.listing_id
          guest := requester
          check_in_date := data.check_in_date
          check_out_date := data.check_out_date
          number_of_guests := data.number_of_guests
          total_price := listing.price_per_night * (duration : ℚ)
          status := data.status.getD .pending }
      .ok ({ db with bookings := db.bookings ++ [b] }, b)

namespace Command

/-- The date-driven status choice inside seed.py create_bookings: a past stay
draws from \x7bcompleted, cancelled\x7d (`pastPick`), a current stay is forced to
confirmed, a future stay draws from all four statuses (`futurePick`).  The
random draws are passed in as parameters. -/
def seedStatus (today start_date end_date : Date)
    (pastPick futurePick : BookingStatus) : BookingStatus :=
  if end_date < today then pastPick
  else if start_date ≤ today ∧ today ≤ end_date then .confirmed
  else futurePick

/-- One loop iteration of seed.py Command.create_bookings, with the random
draws (listing, guest, start date, duration, guest count, status picks) as
parameters: it computes end_date = start_date + duration,
total_price = price_per_night * duration, chooses the status from the dates,
and inserts the booking.  Booking.objects.create is modelled as a plain
append: the Booking model is not under src, and the spec records (sections 5
and 9) that the source's only overlap protection is the serializer's
sequential check, so the insert itself validates nothing. -/
def createBookingIteration (db : DB) (today : Date) (listing : Listing)
    (guest : UserId) (start_date : Date) (duration : Nat)
    (num_guests : Nat) (pastPick futurePick : BookingStatus)
    (newId : BookingId) : DB :=
  let end_date : Date := start_date + duration
  let total_price : ℚ := listing.price_per_night * (duration : ℚ)
  let status := seedStatus today start_date end_date pastPick futurePick
  { db with bookings := db.bookings ++ [{
      booking_id := newId
      listing := listing.listing_id
      guest := guest
      check_in_date := start_date
      check_out_date := end_date
      number_of_guests := num_guests
      total_price := total_price
      status := status }] }

end Command

/-- A booking counts against availability iff its status is pending or
confirmed. -/
def isActive (b : Booking) : Bool :=
  b.status == .pending || b.status == .confirmed

/-- Half-open interval overlap of [a1, b1) and [a2, b2): a1 < b2 and a2 < b1. -/
def halfOpenOverlap (a1 b1 a2 b2 : Date) : Bool :=
  decide (a1 < b2) && decide (a2 < b1)

/-- Two bookings are compatible unless they are on the same listing, both
active, and their date intervals overlap (half-open). -/
def disjointFrom (b1 b2 : Booking) : Bool :=
  !(b1.listing == b2.listing && isActive b1 && isActive b2 &&
    halfOpenOverlap b1.check_in_date b1.check_out_date
      b2.check_in_date b2.check_out_date)

/-- Boolean pairwise check over a list. -/
def pairwiseOk (p : α → α → Bool) : List α → Bool
  | [] => true
  | x :: rest => rest.all (p x) && pairwiseOk p rest

/-- The no-double-booking invariant: pending/confirmed bookings of any one
listing have pairwise-disjoint half-open date intervals. -/
abbrev noOverlapInvariant (db : DB) : Prop :=
  pairwiseOk disjointFrom db.bookings = true

/-- Two reviews clash when they are by the same guest on the same listing. -/
def distinctPair (r1 r2 : Review) : Bool :=
  !(r1.listing == r2.listing && r1.guest == r2.guest)

/-- At most one review per (guest, listing) pair. -/
abbrev atMostOneReviewPerPair (db : DB) : Prop :=
  pairwiseOk distinctPair db.reviews = true

/-- The writable input of ReviewSerializer: listing_id, rating, comment and
the optional write-only booking_id; `guest` carries what a client may try to
supply for the read-only guest field (never read). -/
structure ReviewRequest where
  listing_id : ListingId
  rating : Int
  comment : String
  booking_id : Option BookingId
  guest : Option UserId
deriving Repr

namespace ReviewSerializer

/-- ReviewSerializer.validate_rating: rating must lie in 1..5. -/
def validate_rating (value : Int) : Except ReviewError Int :=
  if 1 ≤ value ∧ value ≤ 5 then .ok value else .error .InvalidRating

/-- The completed-stay queryset of ReviewSerializer.validate:
Booking.objects.filter(listing=listing, guest=guest, status=completed). -/
def completedBookings (db : DB) (listing : Listing) (guest : UserId) :
    List Booking :=
  db.bookings.filter fun b =>
    b.listing == listing.listing_id && b.guest == guest &&
    b.status == .completed

/-- The prior-review queryset of ReviewSerializer.validate:
Review.objects.filter(listing=listing, guest=guest).first(). -/
def existingReview (db : DB) (listing : Listing) (guest : UserId) :
    Option Review :=
  (db.reviews.filter fun rv =>
    rv.listing == listing.listing_id && rv.guest == guest).head?

/-- ReviewSerializer.validate: listing lookup, completed-booking eligibility,
duplicate review (on creation self.instance is None, so a found prior review
always raises). -/
def validate (db : DB) (requester : UserId) (data : ReviewRequest) :
    Except ReviewError Unit :=
  match findListing db data.listing_id with
  | none => .error .NotFound
  | some listing =>
    if (completedBookings db listing requester).isEmpty then
      .error .NotEligible
    else
      match existingReview db listing requester with
      | some _ => .error .DuplicateReview
      | none => .ok ()

end ReviewSerializer

/-- The serializer save pipeline for a review: field validation
(validate_rating) runs before object validation (validate); then
ReviewSerializer.create pops booking_id, refetches the listing, sets
guest := the authenticated request user, attaches the booking only when the
supplied booking_id resolves (Booking.DoesNotExist is swallowed by
`except: pass`), and persists. -/
def createReview (db : DB) (requester : UserId) (newId : ReviewId)
    (data : ReviewRequest) : Except ReviewError (DB × Review) :=
  match ReviewSerializer.validate_rating data.rating with
  | .error e => .error e
  | .ok _ =>
    match ReviewSerializer.validate db requester data with
    | .error e => .error e
    | .ok _ =>
      let booking : Option BookingId :=
        match data.booking_id with
        | none => none
        | some bid =>
          match findBooking db bid with
          | some _ => some bid
          | none => none
      let rv : Review :=
        { review_id := newId
          listing := data.listing_id
          guest := requester
          booking := booking
          rating := data.rating
          comment := data.comment }
      .ok ({ db with reviews := db.reviews ++ [rv] }, rv)

/-- The validation outcome exactly as the specification words it: the checks
in the spec's order, the first failing one winning, with the overlap check
phrased as the spec's existential half-open overlap test over pending and
confirmed bookings of the listing. -/
def firstFailingCheck (db : DB) (today : Date) (r : BookingRequest) :
    Except BookingError Unit :=
  if ¬ r.check_in_date < r.check_out_date then .error .InvalidDateRange
  else if ¬ today ≤ r.check_in_date then .error .PastDate
  else
    match findListing db r.listing_id with
    | none => .error .NotFound
    | some L =>
      if ¬ r.number_of_guests ≤ L.max_guests then .error .CapacityExceeded
      else if ¬ L.available = true then .error .ListingUnavailable
      else if ∃ b ∈ db.bookings, b.listing = L.listing_id ∧
          (b.status = .pending ∨ b.status = .confirmed) ∧
          b.check_in_date < r.check_out_date ∧
          b.check_out_date > r.check_in_date then .error .DateConflict
      else .ok ()

/-! ## General lemmas about the embedding -/

theorem overlappingBookings_ne_nil (db : DB) (L : Listing) (ci co : Date) :
    BookingSerializer.overlappingBookings db L ci co ≠ [] ↔
    ∃ b ∈ db.bookings, b.listing = L.listing_id ∧
      (b.status = .pending ∨ b.status = .confirmed) ∧
      b.check_in_date < co ∧ b.check_out_date > ci := by
  unfold BookingSerializer.overlappingBookings
  rw [Ne, List.filter_eq_nil_iff]
  push_neg
  simp only [Bool.and_eq_true, Bool.or_eq_true, beq_iff_eq, decide_eq_true_eq]
  constructor
  · rintro ⟨b, hb, ⟨⟨h1, h2⟩, h3⟩, h4⟩
    exact ⟨b, hb, h1, h2.symm, h3, h4⟩
  · rintro ⟨b, hb, h1, h2, h3, h4⟩
    exact ⟨b, hb, ⟨⟨h1, h2.symm⟩, h3⟩, h4⟩

theorem validate_eq_firstFailingCheck (db : DB) (today : Date)
    (r : BookingRequest) :
    BookingSerializer.validate db today r = firstFailingCheck db today r := by
  unfold BookingSerializer.validate firstFailingCheck
  by_cases h1 : r.check_out_date ≤ r.check_in_date
  · rw [if_pos h1, if_pos (not_lt.mpr h1)]
  · rw [if_neg h1, if_neg (not_not_intro (not_le.mp h1))]
    by_cases h2 : r.check_in_date < today
    · rw [if_pos h2, if_pos (not_le.mpr h2)]
    · rw [if_neg h2, if_neg (not_not_intro (not_lt.mp h2))]
      rcases hL : findListing db r.listing_id with _ | L <;> simp only [hL]
      by_cases h4 : r.number_of_guests > L.max_guests
      · rw [if_pos h4, if_pos (not_le.mpr h4)]
      · rw [if_neg h4, if_neg (not_not_intro (not_lt.mp h4))]
        by_cases h5 : L.available = true
        · rw [if_neg (by simp [h5]), if_neg (not_not_intro h5)]
          by_cases h6 : BookingSerializer.overlappingBookings db L
              r.check_in_date r.check_out_date = []
          · rw [if_neg (by simp [h6]),
              if_neg (fun hex =>
                (overlappingBookings_ne_nil db L r.check_in_date
                  r.check_out_date).mpr hex h6)]
          · rw [if_pos (by simp [List.isEmpty_iff, h6]),
              if_pos ((overlappingBookings_ne_nil db L r.check_in_date
                r.check_out_date).mp h6)]
        · have h5f : L.available = false := by
            simpa using h5
          rw [if_pos (by simp [h5f]), if_pos h5]

/-- C2: booking validation is fail-fast in the exact order InvalidDateRange,
PastDate, NotFound, CapacityExceeded, ListingUnavailable, DateConflict — the
code's validate agrees everywhere with firstFailingCheck, the check sequence
exactly as the spec words it — and in particular any request with
check_out ≤ check_in fails with InvalidDateRange regardless of every other
input. -/
theorem booking_validation_order (db : DB) (today : Date) (r : BookingRequest) :
    BookingSerializer.validate db today r = firstFailingCheck db today r ∧
    (r.check_out_date ≤ r.check_in_date →
      BookingSerializer.validate db today r = .error .InvalidDateRange) := by
  refine ⟨validate_eq_firstFailingCheck db today r, fun h => ?_⟩
  unfold BookingSerializer.validate
  rw [if_pos h]

theorem pairwiseOk_append (p : α → α → Bool) (l : List α) (x : α) :
    pairwiseOk p (l ++ [x]) = true ↔
      (pairwiseOk p l = true ∧ ∀ e ∈ l, p e x = true) := by
  induction l with
  | nil => simp [pairwiseOk]
  | cons y ys ih =>
    simp only [List.cons_append, pairwiseOk, List.append_eq, List.all_append,
      List.all_cons, List.all_nil, Bool.and_true, Bool.and_eq_true,
      List.all_eq_true, List.mem_cons, ih, forall_eq_or_imp]
    tauto

/-- The booking record BookingSerializer.create persists: the authenticated
requester as guest, the computed total price, the supplied dates and guest
count, and the supplied status (model default pending when omitted). -/
def builtBooking (i : BookingId) (u : UserId) (L : Listing)
    (r : BookingRequest) : Booking :=
  { booking_id := i
    listing := L.listing_id
    guest := u
    check_in_date := r.check_in_date
    check_out_date := r.check_out_date
    number_of_guests := r.number_of_guests
    total_price := L.price_per_night *
      ((r.check_out_date - r.check_in_date : Int) : ℚ)
    status := r.status.getD .pending }

theorem createBooking_ok_shape (db : DB) (today : Date) (u : UserId)
    (i : BookingId) (r : BookingRequest) (res : DB × Booking)
    (h : createBooking db today u i r = .ok res) :
    BookingSerializer.validate db today r = .ok () ∧
    ∃ L, findListing db r.listing_id = some L ∧
      res.2 = builtBooking i u L r ∧
      res.1 = { db with bookings := db.bookings ++ [res.2] } := by
  unfold createBooking at h
  rcases hv : BookingSerializer.validate db today r with e | ⟨⟩
  · rw [hv] at h
    exact Except.noConfusion h
  · rw [hv] at h
    rcases hL : findListing db r.listing_id with _ | L
    · simp only [hL] at h
      exact Except.noConfusion h
    · simp only [hL, Except.ok.injEq] at h
      subst h
      exact ⟨rfl, L, rfl, rfl, rfl⟩

theorem validate_ok_conditions (db : DB) (today : Date) (r : BookingRequest)
    (L : Listing) (hL : findListing db r.listing_id = some L)
    (h : BookingSerializer.validate db today r = .ok ()) :
    r.check_in_date < r.check_out_date ∧ today ≤ r.check_in_date ∧
    r.number_of_guests ≤ L.max_guests ∧ L.available = true ∧
    BookingSerializer.overlappingBookings db L r.check_in_date
      r.check_out_date = [] := by
  unfold BookingSerializer.validate at h
  simp only [hL] at h
  split_ifs at h with h1 h2 h4 h5 h6
  refine ⟨not_le.mp h1, not_lt.mp h2, not_lt.mp h4, by simpa using h5, ?_⟩
  simpa [List.isEmpty_iff] using h6

theorem validate_ok_of_conditions (db : DB) (today : Date)
    (r : BookingRequest) (L : Listing)
    (hL : findListing db r.listing_id = some L)
    (h1 : r.check_in_date < r.check_out_date)
    (h2 : today ≤ r.check_in_date)
    (h4 : r.number_of_guests ≤ L.max_guests)
    (h5 : L.available = true)
    (h6 : BookingSerializer.overlappingBookings db L r.check_in_date
      r.check_out_date = []) :
    BookingSerializer.validate db today r = .ok () := by
  have c1 : ¬ r.check_out_date ≤ r.check_in_date := not_le.mpr h1
  have c2 : ¬ r.check_in_date < today := not_lt.mpr h2
  have c4 : ¬ r.number_of_guests > L.max_guests := not_lt.mpr h4
  have c5 : ¬ (!L.available) = true := by simp [h5]
  have c6 : ¬ (!(BookingSerializer.overlappingBookings db L r.check_in_date
      r.check_out_date).isEmpty) = true := by simp [h6]
  unfold BookingSerializer.validate
  rw [if_neg c1, if_neg c2]
  simp only [hL]
  rw [if_neg c4, if_neg c5, if_neg c6]

theorem disjointFrom_of_not_pred (e b2 : Booking)
    (hpred : ¬ (e.listing == b2.listing &&
      (e.status == .confirmed || e.status == .pending) &&
      decide (e.check_in_date < b2.check_out_date) &&
      decide (e.check_out_date > b2.check_in_date)) = true) :
    disjointFrom e b2 = true := by
  unfold disjointFrom isActive halfOpenOverlap
  rw [Bool.not_eq_true']
  rw [Bool.eq_false_iff]
  intro hx
  apply hpred
  simp only [Bool.and_eq_true, Bool.or_eq_true, beq_iff_eq,
    decide_eq_true_eq] at hx ⊢
  tauto

/-- C1 (amended): serializer-validated booking creation preserves the
invariant that the pending/confirmed bookings of any one listing have
pairwise-disjoint half-open [check_in, check_out) intervals; the
seed-command insertion path checks nothing and does not preserve it. -/
theorem createBooking_preserves_no_overlap (db : DB) (today : Date)
    (u : UserId) (i : BookingId) (r : BookingRequest) (res : DB × Booking)
    (hinv : noOverlapInvariant db)
    (hok : createBooking db today u i r = .ok res) :
    noOverlapInvariant res.1 := by
  obtain ⟨hval, L, hL, hb, hdb⟩ := createBooking_ok_shape db today u i r res hok
  obtain ⟨_, _, _, _, hemp⟩ := validate_ok_conditions db today r L hL hval
  unfold noOverlapInvariant at hinv ⊢
  rw [hdb]
  rw [show ({ db with bookings := db.bookings ++ [res.2] } : DB).bookings
      = db.bookings ++ [res.2] from rfl]
  rw [pairwiseOk_append]
  refine ⟨hinv, fun e he => ?_⟩
  have hemp2 : db.bookings.filter (fun b =>
      b.listing == L.listing_id &&
      (b.status == .confirmed || b.status == .pending) &&
      decide (b.check_in_date < r.check_out_date) &&
      decide (b.check_out_date > r.check_in_date)) = [] := hemp
  have hnot := List.filter_eq_nil_iff.mp hemp2 e he
  rw [hb]
  refine disjointFrom_of_not_pred e (builtBooking i u L r) fun hx => hnot ?_
  simpa only [builtBooking] using hx

/-! ## Concrete states used by witnesses and counterexamples -/

/-- A listing owned by user 7: 100 per night, at most 4 guests, available. -/
def L1 : Listing :=
  { listing_id := 0, host := 7, price_per_night := 100, max_guests := 4,
    available := true }

/-- A state holding only the listing L1. -/
def db1 : DB := { listings := [L1], bookings := [], reviews := [] }

/-- A fresh valid booking request for L1: days [0, 2), 2 guests. -/
def req1 : BookingRequest :=
  { listing_id := 0, check_in_date := 0, check_out_date := 2,
    number_of_guests := 2, status := none, guest := none, total_price := none }

/-- Witness for C1 at a concrete input: creating the booking req1 as user 1
in the empty-booking state db1 succeeds and keeps the no-overlap invariant. -/
theorem createBooking_preserves_no_overlap_witness :
    noOverlapInvariant db1 ∧
    noOverlapInvariant
      ((createBooking db1 0 1 40 req1).toOption.getD (db1, default)).1 :=
  ⟨by decide,
    createBooking_preserves_no_overlap db1 0 1 40 req1
      ((createBooking db1 0 1 40 req1).toOption.getD (db1, default))
      (by decide) rfl⟩

/-- The state after the seed command inserts a booking for L1 by guest 1 over
days [0, 5), on a day (today = 2) inside the stay, so seed.py marks it
confirmed deterministically. -/
def seedDB1 : DB :=
  Command.createBookingIteration db1 2 L1 1 0 5 2 .completed .pending 50

/-- One more seed insertion: guest 2, days [1, 6), again while the stay is in
progress, again marked confirmed — overlapping the first seeded booking. -/
def seedDB2 : DB :=
  Command.createBookingIteration seedDB1 2 L1 2 1 5 2 .completed .pending 51

/-- C1 counterexample: the seed-command insertion path does not preserve the
no-overlap invariant.  From the invariant-satisfying state seedDB1 (one
confirmed booking of L1 over [0, 5)), the seed iteration inserts a second
confirmed booking of L1 over [1, 6) without any overlap check, and the
invariant is false afterwards. -/
theorem seed_insert_violates_no_overlap :
    noOverlapInvariant seedDB1 ∧ ¬ noOverlapInvariant seedDB2 := by
  constructor
  · decide
  · decide

/-- Witness for C2 at a concrete input: a request with check_out = check_in
is rejected with InvalidDateRange. -/
theorem booking_validation_order_witness :
    BookingSerializer.validate db1 0
      { req1 with check_out_date := 0 } = .error .InvalidDateRange :=
  (booking_validation_order db1 0 { req1 with check_out_date := 0 }).2
    (by decide)

/-- Is the serializer run a success? -/
def isOkE : Except ε α → Bool
  | .ok _ => true
  | .error _ => false

instance [DecidableEq ε] [DecidableEq α] : DecidableEq (Except ε α) :=
  fun a b =>
    match a, b with
    | .ok x, .ok y =>
      if h : x = y then .isTrue (by rw [h]) else .isFalse (by simp [h])
    | .error x, .error y =>
      if h : x = y then .isTrue (by rw [h]) else .isFalse (by simp [h])
    | .ok _, .error _ => .isFalse (by simp)
    | .error _, .ok _ => .isFalse (by simp)

/-- C3: the booking serializer performs no guest-vs-host comparison anywhere.
User 7 is the host of L1, and a booking request for L1 issued by user 7
passes every check and creates a pending booking whose guest is the host —
the specification instead requires such a request to fail with InvalidGuest
before the overlap check. -/
theorem host_books_own_listing :
    L1.host = 7 ∧
    ((createBooking db1 0 7 41 req1).toOption.map fun p =>
      (p.2.guest, p.2.listing, p.2.status)) = some (7, 0, .pending) := by
  exact ⟨by decide, by decide⟩

theorem createBooking_ignores_read_only (db : DB) (today : Date) (u : UserId)
    (i : BookingId) (r : BookingRequest) (g : Option UserId) (tp : Option ℚ) :
    createBooking db today u i { r with guest := g, total_price := tp } =
      createBooking db today u i r := by
  cases r
  rfl

/-- C4: every successfully created booking has total_price equal to
price_per_night times the number of whole days from check_in to check_out,
computed exactly in ℚ, and a client-supplied total_price value has no effect
on the outcome (the field is read-only). -/
theorem total_price_exact (db : DB) (today : Date) (u : UserId)
    (i : BookingId) (r : BookingRequest) (L : Listing) (res : DB × Booking)
    (hL : findListing db r.listing_id = some L)
    (hok : createBooking db today u i r = .ok res) :
    res.2.total_price = L.price_per_night *
      ((r.check_out_date - r.check_in_date : Int) : ℚ) ∧
    ∀ tp : Option ℚ,
      createBooking db today u i { r with total_price := tp } =
        createBooking db today u i r := by
  obtain ⟨hval, L2, hL2, hb, hdb⟩ :=
    createBooking_ok_shape db today u i r res hok
  have hLL : L2 = L := Option.some.inj (hL2.symm.trans hL)
  constructor
  · rw [hb, hLL]
    rfl
  · exact fun tp => createBooking_ignores_read_only db today u i r r.guest tp

/-- The result of a concrete successful creation: user 1 books L1 over
days [0, 2). -/
def res4 : DB × Booking :=
  (createBooking db1 0 1 42 req1).toOption.getD (db1, default)

/-- Witness for C4 at a concrete input: the stored total price is
price_per_night (100) times the 2-night duration. -/
theorem total_price_exact_witness :
    res4.2.total_price = L1.price_per_night *
      ((req1.check_out_date - req1.check_in_date : Int) : ℚ) :=
  (total_price_exact db1 0 1 42 req1 L1 res4 (by decide) rfl).1

/-- C5: the DateConflict test is exactly the half-open-interval overlap test
restricted to bookings of the listing with status pending or confirmed; a
new booking whose interval merely touches every active booking of the
listing at an endpoint is accepted, not rejected. -/
theorem overlap_test_is_half_open (db : DB) (today : Date) (u : UserId)
    (i : BookingId) (r : BookingRequest) (L : Listing) :
    (BookingSerializer.overlappingBookings db L r.check_in_date
        r.check_out_date ≠ [] ↔
      ∃ b ∈ db.bookings, b.listing = L.listing_id ∧
        (b.status = .pending ∨ b.status = .confirmed) ∧
        halfOpenOverlap b.check_in_date b.check_out_date
          r.check_in_date r.check_out_date = true) ∧
    (findListing db r.listing_id = some L →
      r.check_in_date < r.check_out_date → today ≤ r.check_in_date →
      r.number_of_guests ≤ L.max_guests → L.available = true →
      (∀ b ∈ db.bookings, b.listing = L.listing_id → isActive b = true →
        b.check_out_date = r.check_in_date ∨
        b.check_in_date = r.check_out_date) →
      isOkE (createBooking db today u i r) = true) := by
  constructor
  · rw [overlappingBookings_ne_nil db L r.check_in_date r.check_out_date]
    simp [halfOpenOverlap, and_assoc]
  · intro hL h1 h2 h4 h5 htouch
    have hemp : BookingSerializer.overlappingBookings db L r.check_in_date
        r.check_out_date = [] := by
      unfold BookingSerializer.overlappingBookings
      rw [List.filter_eq_nil_iff]
      intro b hb hpred
      simp only [Bool.and_eq_true, Bool.or_eq_true, beq_iff_eq,
        decide_eq_true_eq] at hpred
      obtain ⟨⟨⟨hlst, hst⟩, hlt1⟩, hlt2⟩ := hpred
      have hact : isActive b = true := by
        rcases hst with h | h <;> simp [isActive, h]
      rcases htouch b hb hlst hact with hco | hci
      · rw [hco] at hlt2
        exact lt_irrefl _ hlt2
      · rw [hci] at hlt1
        exact lt_irrefl _ hlt1
    have hval := validate_ok_of_conditions db today r L hL h1 h2 h4 h5 hemp
    unfold createBooking
    rw [hval]
    simp only [hL]
    rfl

/-- A pending booking of L1 over days [1, 5), as in the spec's scenario. -/
def bookingA : Booking :=
  { booking_id := 60, listing := 0, guest := 1, check_in_date := 1,
    check_out_date := 5, number_of_guests := 2, total_price := 400,
    status := .pending }

/-- A state with listing L1 and the single pending booking bookingA. -/
def dbA : DB := { listings := [L1], bookings := [bookingA], reviews := [] }

/-- A request for L1 over days [5, 7): adjacent to bookingA, touching at
day 5 only. -/
def reqC : BookingRequest :=
  { listing_id := 0, check_in_date := 5, check_out_date := 7,
    number_of_guests := 2, status := none, guest := none, total_price := none }

/-- Witness for C5 at a concrete input: with a pending booking over [1, 5),
the adjacent request [5, 7) is accepted. -/
theorem overlap_test_is_half_open_witness :
    isOkE (createBooking dbA 1 2 61 reqC) = true :=
  (overlap_test_is_half_open dbA 1 2 61 reqC L1).2 (by decide) (by decide)
    (by decide) (by decide) (by decide) (by decide)

/-- C6 counterexample: status is a writable serializer field — a request
carrying status = confirmed creates a booking stored as confirmed from the
start, not pending. -/
theorem client_supplied_status_stored :
    ((createBooking db1 0 1 43
        { req1 with status := some .confirmed }).toOption.map
      fun p => p.2.status) = some .confirmed := by decide

/-- C6 (amended): the status of a freshly created booking is the
client-supplied status when one is supplied, and the model default pending
exactly when the client omits the field. -/
theorem created_booking_status (db : DB) (today : Date) (u : UserId)
    (i : BookingId) (r : BookingRequest) (res : DB × Booking)
    (hok : createBooking db today u i r = .ok res) :
    res.2.status = r.status.getD .pending ∧
    (r.status = none → res.2.status = .pending) := by
  obtain ⟨hval, L, hL, hb, hdb⟩ := createBooking_ok_shape db today u i r res hok
  constructor
  · rw [hb]
    rfl
  · intro hnone
    rw [hb]
    simp [builtBooking, hnone]

/-- Witness for C6 at a concrete input: req1 omits status, and the created
booking starts pending. -/
theorem created_booking_status_witness :
    ((createBooking db1 0 1 44 req1).toOption.getD (db1, default)).2.status =
      req1.status.getD .pending :=
  (created_booking_status db1 0 1 44 req1
    ((createBooking db1 0 1 44 req1).toOption.getD (db1, default)) rfl).1

theorem findListing_id (db : DB) (lid : ListingId) (L : Listing)
    (h : findListing db lid = some L) : L.listing_id = lid := by
  have := List.find?_some h
  simpa using this

theorem completedBookings_empty (db : DB) (L : Listing) (u : UserId)
    (hno : ∀ b ∈ db.bookings, b.listing = L.listing_id → b.guest = u →
      b.status ≠ .completed) :
    ReviewSerializer.completedBookings db L u = [] := by
  unfold ReviewSerializer.completedBookings
  rw [List.filter_eq_nil_iff]
  intro b hb hpred
  simp only [Bool.and_eq_true, beq_iff_eq] at hpred
  exact hno b hb hpred.1.1 hpred.1.2 hpred.2

theorem validate_not_eligible (db : DB) (u : UserId) (r : ReviewRequest)
    (L : Listing) (hL : findListing db r.listing_id = some L)
    (hemp : ReviewSerializer.completedBookings db L u = []) :
    ReviewSerializer.validate db u r = .error .NotEligible := by
  unfold ReviewSerializer.validate
  simp only [hL]
  rw [if_pos (by simp [hemp])]

/-- C7 (amended): a guest with no completed booking for a listing can never
successfully create a review for it — every attempt fails and no review is
persisted — and whenever the rating is valid and the listing exists the
reported error is NotEligible (an invalid rating is reported as
InvalidRating by the earlier field-level check instead). -/
theorem review_requires_completed_stay (db : DB) (u : UserId) (i : ReviewId)
    (r : ReviewRequest)
    (hno : ∀ b ∈ db.bookings, b.listing = r.listing_id → b.guest = u →
      b.status ≠ .completed) :
    (∀ res, createReview db u i r ≠ .ok res) ∧
    (∀ L, findListing db r.listing_id = some L →
      1 ≤ r.rating → r.rating ≤ 5 →
      createReview db u i r = .error .NotEligible) := by
  have hmain : ∀ L, findListing db r.listing_id = some L →
      ReviewSerializer.validate db u r = .error .NotEligible := by
    intro L hL
    have hid := findListing_id db r.listing_id L hL
    have hemp := completedBookings_empty db L u
      (fun b hb hbl => hno b hb (hbl.trans hid))
    exact validate_not_eligible db u r L hL hemp
  constructor
  · intro res hok
    unfold createReview at hok
    rcases hv : ReviewSerializer.validate_rating r.rating with e | v
    · rw [hv] at hok
      exact Except.noConfusion hok
    · rw [hv] at hok
      rcases hL : findListing db r.listing_id with _ | L
      · have hnf : ReviewSerializer.validate db u r = .error .NotFound := by
          unfold ReviewSerializer.validate
          simp only [hL]
        rw [hnf] at hok
        exact Except.noConfusion hok
      · rw [hmain L hL] at hok
        exact Except.noConfusion hok
  · intro L hL h1 h5
    have hr : ReviewSerializer.validate_rating r.rating = .ok r.rating := by
      unfold ReviewSerializer.validate_rating
      rw [if_pos ⟨h1, h5⟩]
    unfold createReview
    rw [hr, hmain L hL]

/-- A review request for L1 with rating 0 and no booking reference. -/
def req7 : ReviewRequest :=
  { listing_id := 0, rating := 0, comment := "bad", booking_id := none,
    guest := none }

/-- C7 counterexample: in db1 there is no booking at all, so guest 1 has no
completed stay for L1, yet the review attempt with rating 0 fails with
InvalidRating — not with NotEligible as the claim states for every
attempt. -/
theorem no_completed_stay_invalid_rating :
    db1.bookings = [] ∧
    createReview db1 1 70 req7 = .error .InvalidRating := ⟨by decide, by decide⟩

/-- The same request with a valid rating. -/
def req7b : ReviewRequest :=
  { listing_id := 0, rating := 4, comment := "nice", booking_id := none,
    guest := none }

/-- Witness for C7 at a concrete input: guest 1 has no completed stay and a
well-formed review attempt fails with NotEligible. -/
theorem review_requires_completed_stay_witness :
    createReview db1 1 71 req7b = .error .NotEligible :=
  (review_requires_completed_stay db1 1 71 req7b (by decide)).2 L1 (by decide)
    (by decide) (by decide)

theorem existingReview_of_mem (db : DB) (L : Listing) (u : UserId)
    (rv : Review) (hrv : rv ∈ db.reviews) (hl : rv.listing = L.listing_id)
    (hg : rv.guest = u) :
    ∃ rv2, ReviewSerializer.existingReview db L u = some rv2 := by
  unfold ReviewSerializer.existingReview
  rcases hh : (db.reviews.filter fun x =>
      x.listing == L.listing_id && x.guest == u).head? with _ | rv2
  · rw [List.head?_eq_none_iff] at hh
    have : rv ∈ (db.reviews.filter fun x =>
        x.listing == L.listing_id && x.guest == u) :=
      List.mem_filter.mpr ⟨hrv, by simp [hl, hg]⟩
    rw [hh] at this
    exact absurd this (List.not_mem_nil rv)
  · exact ⟨rv2, hh⟩

theorem validate_duplicate (db : DB) (u : UserId) (r : ReviewRequest)
    (L : Listing) (hL : findListing db r.listing_id = some L)
    (hcb : ReviewSerializer.completedBookings db L u ≠ [])
    (hex : ∃ rv2, ReviewSerializer.existingReview db L u = some rv2) :
    ReviewSerializer.validate db u r = .error .DuplicateReview := by
  obtain ⟨rv2, hrv2⟩ := hex
  unfold ReviewSerializer.validate
  simp only [hL]
  rw [if_neg (by simp [List.isEmpty_iff, hcb]), hrv2]

theorem createReview_ok_shape (db : DB) (u : UserId) (i : ReviewId)
    (r : ReviewRequest) (res : DB × Review)
    (h : createReview db u i r = .ok res) :
    ReviewSerializer.validate db u r = .ok () ∧
    res.2.listing = r.listing_id ∧ res.2.guest = u ∧
    res.2.rating = r.rating ∧
    res.2.booking = (match r.booking_id with
      | none => none
      | some bid => match findBooking db bid with
        | some _ => some bid
        | none => none) ∧
    res.1 = { db with reviews := db.reviews ++ [res.2] } := by
  unfold createReview at h
  rcases hv : ReviewSerializer.validate_rating r.rating with e | v
  · rw [hv] at h
    exact Except.noConfusion h
  · rw [hv] at h
    rcases hw : ReviewSerializer.validate db u r with e | ⟨⟩
    · rw [hw] at h
      exact Except.noConfusion h
    · rw [hw] at h
      simp only [Except.ok.injEq] at h
      subst h
      exact ⟨rfl, rfl, rfl, rfl, rfl, rfl⟩

theorem validate_ok_no_existing (db : DB) (u : UserId) (r : ReviewRequest)
    (h : ReviewSerializer.validate db u r = .ok ()) :
    ∃ L, findListing db r.listing_id = some L ∧
      ReviewSerializer.completedBookings db L u ≠ [] ∧
      ReviewSerializer.existingReview db L u = none := by
  unfold ReviewSerializer.validate at h
  rcases hL : findListing db r.listing_id with _ | L
  · simp only [hL] at h
    exact Except.noConfusion h
  · simp only [hL] at h
    by_cases hcb : (ReviewSerializer.completedBookings db L u).isEmpty = true
    · rw [if_pos hcb] at h
      exact Except.noConfusion h
    · rw [if_neg hcb] at h
      rcases hex : ReviewSerializer.existingReview db L u with _ | rv2
      · refine ⟨L, rfl, ?_, hex⟩
        simpa [List.isEmpty_iff] using hcb
      · rw [hex] at h
        exact Except.noConfusion h

/-- C8 (amended): a (guest, listing) pair that already has a review can never
create a second one — every attempt fails, with DuplicateReview whenever the
rating is valid and the eligibility checks still pass (an invalid rating is
reported as InvalidRating first) — and review creation preserves the
at-most-one-review-per-pair invariant. -/
theorem duplicate_review_rejected (db : DB) (u : UserId) (i : ReviewId)
    (r : ReviewRequest) :
    ((∃ rv ∈ db.reviews, rv.listing = r.listing_id ∧ rv.guest = u) →
      (∀ res, createReview db u i r ≠ .ok res) ∧
      (∀ L, findListing db r.listing_id = some L →
        1 ≤ r.rating → r.rating ≤ 5 →
        ReviewSerializer.completedBookings db L u ≠ [] →
        createReview db u i r = .error .DuplicateReview)) ∧
    (∀ res, atMostOneReviewPerPair db → createReview db u i r = .ok res →
      atMostOneReviewPerPair res.1) := by
  constructor
  · rintro ⟨rv, hrv, hl, hg⟩
    constructor
    · intro res hok
      obtain ⟨hval, _, _, _, _, _⟩ := createReview_ok_shape db u i r res hok
      obtain ⟨L, hL, hcb, hex⟩ := validate_ok_no_existing db u r hval
      have hid := findListing_id db r.listing_id L hL
      obtain ⟨rv2, hrv2⟩ :=
        existingReview_of_mem db L u rv hrv (hl.trans hid.symm) hg
      rw [hrv2] at hex
      exact Option.noConfusion hex
    · intro L hL h1 h5 hcb
      have hid := findListing_id db r.listing_id L hL
      have hr : ReviewSerializer.validate_rating r.rating = .ok r.rating := by
        unfold ReviewSerializer.validate_rating
        rw [if_pos ⟨h1, h5⟩]
      have hdup := validate_duplicate db u r L hL hcb
        (existingReview_of_mem db L u rv hrv (hl.trans hid.symm) hg)
      unfold createReview
      rw [hr, hdup]
  · intro res hinv hok
    obtain ⟨hval, hlst, hgst, _, _, hdb⟩ := createReview_ok_shape db u i r res hok
    obtain ⟨L, hL, hcb, hex⟩ := validate_ok_no_existing db u r hval
    have hid := findListing_id db r.listing_id L hL
    unfold atMostOneReviewPerPair at hinv ⊢
    rw [hdb]
    rw [show ({ db with reviews := db.reviews ++ [res.2] } : DB).reviews
        = db.reviews ++ [res.2] from rfl]
    rw [pairwiseOk_append]
    refine ⟨hinv, fun e he => ?_⟩
    have hflt : (db.reviews.filter fun x =>
        x.listing == L.listing_id && x.guest == u) = [] := by
      have := hex
      unfold ReviewSerializer.existingReview at this
      rwa [List.head?_eq_none_iff] at this
    have hnot := List.filter_eq_nil_iff.mp hflt e he
    unfold distinctPair
    rw [Bool.not_eq_true']
    rw [Bool.eq_false_iff]
    intro hx
    apply hnot
    simp only [Bool.and_eq_true, beq_iff_eq] at hx ⊢
    obtain ⟨hx1, hx2⟩ := hx
    exact ⟨hx1.trans (hlst.trans hid.symm), hx2.trans hgst⟩

/-- A completed stay of guest 1 at L1, over past days [-10, -5). -/
def bookingDone : Booking :=
  { booking_id := 80, listing := 0, guest := 1, check_in_date := -10,
    check_out_date := -5, number_of_guests := 1, total_price := 500,
    status := .completed }

/-- The review guest 1 already wrote for L1. -/
def reviewExisting : Review :=
  { review_id := 81, listing := 0, guest := 1, booking := some 80, rating := 5,
    comment := "great" }

/-- A state where guest 1 has a completed stay at L1 and has already
reviewed it. -/
def dbR : DB :=
  { listings := [L1], bookings := [bookingDone], reviews := [reviewExisting] }

/-- A second well-formed review request by guest 1 for L1. -/
def req8 : ReviewRequest :=
  { listing_id := 0, rating := 3, comment := "again", booking_id := none,
    guest := none }

/-- C8 counterexample: the pair (guest 1, listing 0) already has a review in
dbR, yet a second attempt with rating 0 fails with InvalidRating — not with
DuplicateReview as the claim states for every subsequent attempt. -/
theorem duplicate_pair_invalid_rating :
    reviewExisting ∈ dbR.reviews ∧ reviewExisting.listing = 0 ∧
    reviewExisting.guest = 1 ∧
    createReview dbR 1 83 { req8 with rating := 0 } =
      .error .InvalidRating :=
  ⟨by decide, by decide, by decide, by decide⟩

/-- Witness for C8 at a concrete input: the well-formed second attempt by
guest 1 fails with DuplicateReview. -/
theorem duplicate_review_rejected_witness :
    createReview dbR 1 82 req8 = .error .DuplicateReview :=
  ((duplicate_review_rejected dbR 1 82 req8).1 (by decide)).2 L1 (by decide)
    (by decide) (by decide) (by decide)

/-- C9: for a review request that passes validation and supplies a
booking_id, the created review references that booking exactly when the id
resolves to an existing booking; an unresolved booking_id never fails the
request — the review is still created, with no booking attached. -/
theorem review_booking_attachment (db : DB) (u : UserId) (i : ReviewId)
    (r : ReviewRequest) (bid : BookingId)
    (h1 : 1 ≤ r.rating) (h5 : r.rating ≤ 5)
    (hval : ReviewSerializer.validate db u r = .ok ())
    (hbid : r.booking_id = some bid) :
    (findBooking db bid = none →
      ((createReview db u i r).toOption.map fun p => p.2.booking) =
        some none) ∧
    (∀ b, findBooking db bid = some b →
      ((createReview db u i r).toOption.map fun p => p.2.booking) =
        some (some bid)) := by
  have hr : ReviewSerializer.validate_rating r.rating = .ok r.rating := by
    unfold ReviewSerializer.validate_rating
    rw [if_pos ⟨h1, h5⟩]
  constructor
  · intro hnone
    unfold createReview
    simp only [hr, hval, hbid, hnone]
    rfl
  · intro b hsome
    unfold createReview
    simp only [hr, hval, hbid, hsome]
    rfl

/-- A state where guest 1 has a completed stay at L1 and no review yet. -/
def dbE : DB :=
  { listings := [L1], bookings := [bookingDone], reviews := [] }

/-- A review request for L1 referencing the nonexistent booking 999. -/
def req9 : ReviewRequest :=
  { listing_id := 0, rating := 4, comment := "fine", booking_id := some 999,
    guest := none }

/-- Witness for C9 at a concrete input: booking id 999 resolves to nothing,
and the review is created anyway with no booking attached. -/
theorem review_booking_attachment_witness :
    ((createReview dbE 1 90 req9).toOption.map fun p => p.2.booking) =
      some none :=
  (review_booking_attachment dbE 1 90 req9 999 (by decide) (by decide)
    (by decide) rfl).1 (by decide)

/-- C10: the stored guest of every successfully created booking and review is
the authenticated requesting actor, and a client-supplied guest value has no
influence at all: two requests that differ only in the guest field produce
identical results. -/
theorem guest_is_authenticated_requester :
    (∀ (db : DB) (today : Date) (u : UserId) (i : BookingId)
      (r : BookingRequest) (res : DB × Booking),
      createBooking db today u i r = .ok res → res.2.guest = u) ∧
    (∀ (db : DB) (u : UserId) (i : ReviewId) (r : ReviewRequest)
      (res : DB × Review),
      createReview db u i r = .ok res → res.2.guest = u) ∧
    (∀ (db : DB) (today : Date) (u : UserId) (i : BookingId)
      (r : BookingRequest) (g : Option UserId),
      createBooking db today u i { r with guest := g } =
        createBooking db today u i r) ∧
    (∀ (db : DB) (u : UserId) (i : ReviewId) (r : ReviewRequest)
      (g : Option UserId),
      createReview db u i { r with guest := g } = createReview db u i r) := by
  refine ⟨?_, ?_, ?_, ?_⟩
  · intro db today u i r res hok
    obtain ⟨_, L, _, hb, _⟩ := createBooking_ok_shape db today u i r res hok
    rw [hb]
    rfl
  · intro db u i r res hok
    exact (createReview_ok_shape db u i r res hok).2.2.1
  · intro db today u i r g
    exact createBooking_ignores_read_only db today u i r g r.total_price
  · intro db u i r g
    cases r
    rfl

/-- Witness for C10 at a concrete input: a request claiming guest 9 is
created with the authenticated requester 1 as guest. -/
theorem guest_is_authenticated_requester_witness :
    ((createBooking db1 0 1 45 { req1 with guest := some 9 }).toOption.getD
      (db1, default)).2.guest = 1 :=
  guest_is_authenticated_requester.1 db1 0 1 45 { req1 with guest := some 9 }
    ((createBooking db1 0 1 45 { req1 with guest := some 9 }).toOption.getD
      (db1, default)) rfl
